import Mathlib

/-!
Formal model of the Botrix account-creation system, translated from the
Python sources in `workers/`:

* `workers/email_handler.py` — `HotmailPool` (credential pool),
  `EmailVerifier` (code extraction, verification-code polling);
* `workers/account_creator.py` — `KickAccountCreator.create_account`
  (the multi-stage pipeline with per-failure-class pool compensation);
* `workers/worker_daemon.py` — `WorkerDaemon.process_job`
  (per-job unit loop, outcome classification, retry/requeue logic);
* `workers/kasada_solver.py` — `KasadaSolver.solve` and
  `KasadaSolver._make_api_request` (retry/backoff and status handling).

Python `set` objects are modelled as `Finset String`, lists as `List`,
`None`-or-value as `Option`, raised exceptions as `Except` values whose
error carries the exception class relevant to the enclosing handlers.
-/

namespace Botrix

/-! Section: credential pool — `HotmailPool` in `workers/email_handler.py` -/

/-- Exception raised by `HotmailPool._load_emails` on a non-comment,
non-blank line without a `:` separator. -/
inductive LoadError where
  | malformedEmailFormat
  deriving DecidableEq, Repr

/-- Exception raised by `HotmailPool.get_next_email` when `available_emails`
is empty.  In Python, `EmailPoolEmptyError` is a subclass of
`EmailVerificationError`. -/
inductive PoolError where
  | emailPoolEmpty
  deriving DecidableEq, Repr

/-- Model of Python `str.strip()`: remove leading and trailing whitespace
(implemented over the character list so that it evaluates inside the
kernel). -/
def pyStrip (s : String) : String :=
  String.mk
    (((s.data.dropWhile Char.isWhitespace).reverse.dropWhile
        Char.isWhitespace).reverse)

/-- Model of Python `c in s` for a single character. -/
def strContains (s : String) (c : Char) : Bool :=
  s.data.any (fun x => x = c)

/-- Model of Python `line.startswith(p)` for a single character. -/
def headIs (p : Char) (s : String) : Bool :=
  match s.data with
  | [] => false
  | c :: _ => c = p

/-- Split a character list at the first occurrence of `c`, returning the
parts before and after it — the model of Python `line.split(c, 1)` when it
yields two parts; `none` models `c not in line`. -/
def splitFirst (c : Char) : List Char → Option (List Char × List Char)
  | [] => none
  | x :: xs =>
    if x = c then some ([], xs)
    else (splitFirst c xs).map (fun p => (x :: p.1, p.2))

/-- Pool state: `available_emails` is the ordered list of
`(email_address, password)` pairs, `used_emails` and `failed_emails` are
Python sets of identifiers. -/
structure HotmailPool where
  available_emails : List (String × String)
  used_emails : Finset String
  failed_emails : Finset String
  deriving DecidableEq

/-- The body of `HotmailPool._load_emails`: process the lines of the pool
file in order, returning the entries appended to `available_emails` and,
when a malformed line is hit, the raised error (entries appended before the
bad line are kept, as in the Python code, which appends in place and then
raises). A line is skipped when blank or a `#` comment, when the address
part lacks `@` or `.`, or when the address is already used or failed. -/
def loadEmailsAux (used failed : Finset String) :
    List String → List (String × String) × Option LoadError
  | [] => ([], none)
  | l :: ls =>
    let line := pyStrip l
    if line = "" ∨ headIs '#' line then
      loadEmailsAux used failed ls
    else
      match splitFirst ':' line.data with
      | none => ([], some LoadError.malformedEmailFormat)
      | some (a, b) =>
        let email_address := pyStrip (String.mk a)
        let password := pyStrip (String.mk b)
        if ¬ (strContains email_address '@' ∧ strContains email_address '.') then
          loadEmailsAux used failed ls
        else if email_address ∈ used ∨ email_address ∈ failed then
          loadEmailsAux used failed ls
        else
          let rest := loadEmailsAux used failed ls
          ((email_address, password) :: rest.1, rest.2)

/-- Model of `HotmailPool.__init__` on an existing pool file with the given lines:
starts with empty `used`/`failed` sets and runs `_load_emails`; a malformed
line aborts construction with the raised error. -/
def loadPool (lines : List String) : Except LoadError HotmailPool :=
  match loadEmailsAux ∅ ∅ lines with
  | (entries, none) => Except.ok ⟨entries, ∅, ∅⟩
  | (_, some e) => Except.error e

/-- Model of `HotmailPool.get_next_email`: returns the head of `available_emails`
without mutating state, or raises `EmailPoolEmptyError`. -/
def HotmailPool.get_next_email (pool : HotmailPool) :
    Except PoolError (String × String) :=
  match pool.available_emails with
  | [] => Except.error PoolError.emailPoolEmpty
  | e :: _ => Except.ok e

/-- Model of `HotmailPool.mark_as_used`: adds the identifier to `used_emails` and
removes every `available_emails` entry whose address equals it. -/
def HotmailPool.mark_as_used (pool : HotmailPool) (email_address : String) :
    HotmailPool :=
  { pool with
    used_emails := insert email_address pool.used_emails
    available_emails :=
      pool.available_emails.filter (fun ep => ep.1 != email_address) }

/-- Model of `HotmailPool.mark_as_failed`: adds the identifier to `failed_emails` and
removes every `available_emails` entry whose address equals it. -/
def HotmailPool.mark_as_failed (pool : HotmailPool) (email_address : String) :
    HotmailPool :=
  { pool with
    failed_emails := insert email_address pool.failed_emails
    available_emails :=
      pool.available_emails.filter (fun ep => ep.1 != email_address) }

/-- Model of `HotmailPool.reload`: clears `available_emails` and re-runs
`_load_emails` against the current file contents, keeping the `used` and
`failed` sets; on a malformed line the entries appended before the error
are kept (the Python method appends in place before raising). -/
def HotmailPool.reload (pool : HotmailPool) (lines : List String) :
    HotmailPool :=
  { pool with
    available_emails :=
      (loadEmailsAux pool.used_emails pool.failed_emails lines).1 }

/-- Model of `HotmailPool.get_stats`: the `available`/`used`/`failed`/`total`
dictionary, as a tuple of cardinalities in that order. -/
def HotmailPool.get_stats (pool : HotmailPool) : ℕ × ℕ × ℕ × ℕ :=
  ( pool.available_emails.length
  , pool.used_emails.card
  , pool.failed_emails.card
  , pool.available_emails.length + pool.used_emails.card
      + pool.failed_emails.card )

/-- One observable operation on a loaded pool (`get_next_email` is a pure
read; `reload` carries the file contents observed at reload time). -/
inductive PoolOp where
  | markUsed (email_address : String)
  | markFailed (email_address : String)
  | getNext
  | reload (lines : List String)

/-- Apply one operation to the pool state. -/
def applyOp (pool : HotmailPool) : PoolOp → HotmailPool
  | PoolOp.markUsed e => pool.mark_as_used e
  | PoolOp.markFailed e => pool.mark_as_failed e
  | PoolOp.getNext => pool
  | PoolOp.reload lines => pool.reload lines

/-- Apply a sequence of operations from left to right. -/
def applyOps (pool : HotmailPool) (ops : List PoolOp) : HotmailPool :=
  ops.foldl applyOp pool

/-- The part of the spec's partition invariant that the code maintains:
no identifier of an available entry is in either terminal set. -/
def availDisjoint (pool : HotmailPool) : Prop :=
  ∀ ep ∈ pool.available_emails,
    ep.1 ∉ pool.used_emails ∧ ep.1 ∉ pool.failed_emails

instance (pool : HotmailPool) : Decidable (availDisjoint pool) := by
  unfold availDisjoint; infer_instance

/-! Section: verification-code extraction — `EmailVerifier` in
`workers/email_handler.py`

`EmailVerifier.CODE_PATTERNS` is the ordered list

* `\b(\d{4,8})\b` — generic 4-8 digit code (listed first),
* `code[:\s]+(\d{4,8})`,
* `verification[:\s]+(\d{4,8})`,
* `confirm[:\s]+(\d{4,8})`,
* `your code is[:\s]+(\d{4,8})`,

and `_extract_code_from_text` applies `re.search` with `IGNORECASE` to each
pattern in list order, returning group 1 of the first pattern that matches.
The two regex shapes are modelled exactly for ASCII text: word characters
are alphanumerics and underscore, `\s` is whitespace. -/

/-- One entry of `EmailVerifier.CODE_PATTERNS`: the generic
`\b(\d{4,8})\b` fallback, or a labelled pattern
`<label>[:\s]+(\d{4,8})`. -/
inductive CodePattern where
  | generic
  | labelled (label : String)
  deriving DecidableEq, Repr

/-- Word character for the regex `\b` boundary. -/
def isWordChar (c : Char) : Bool :=
  c.isAlpha || c.isDigit || c == '_'

/-- Character class `[:\s]` of the labelled patterns. -/
def isColonOrSpace (c : Char) : Bool :=
  c == ':' || c.isWhitespace

/-- Model of the search for the generic pattern (4 to 8 digits between word boundaries): scan left to right; at each
maximal digit run that starts at a word boundary, the run matches exactly
when its length is between 4 and 8 and it ends at a word boundary.
`prevWord` records whether the previous character is a word character. -/
def findGeneric : Bool → List Char → Option String
  | _, [] => none
  | prevWord, c :: cs =>
    if c.isDigit ∧ prevWord = false then
      let run := c :: cs.takeWhile Char.isDigit
      let rest := cs.drop (cs.takeWhile Char.isDigit).length
      if 4 ≤ run.length ∧ run.length ≤ 8 ∧
          (rest.head?.all (fun d => ¬ isWordChar d)) then
        some (String.mk run)
      else
        findGeneric (isWordChar c) cs
    else
      findGeneric (isWordChar c) cs

/-- Try to match `label` (case-insensitively) at the head of `s`, returning
the remaining characters. -/
def matchLabelAt : List Char → List Char → Option (List Char)
  | [], rest => some rest
  | _ :: _, [] => none
  | l :: ls, c :: cs =>
    if c.toLower = l.toLower then matchLabelAt ls cs else none

/-- After a matched label, require `[:\s]+` then capture `(\d{4,8})`
greedily (no trailing boundary): at least one separator, then at least 4
digits, of which the first `min 8` are the captured group. -/
def sepThenDigits (rest : List Char) : Option String :=
  let seps := rest.takeWhile isColonOrSpace
  if seps.length = 0 then none
  else
    let run := (rest.drop seps.length).takeWhile Char.isDigit
    if 4 ≤ run.length then some (String.mk (run.take 8)) else none

/-- Model of `re.search` for a labelled pattern: try the label at each position,
left to right; on a label match the separators and digits must follow,
otherwise the scan resumes at the next position. -/
def findLabelled (label : List Char) : List Char → Option String
  | [] =>
    match matchLabelAt label [] with
    | some rest => sepThenDigits rest
    | none => none
  | c :: cs =>
    match matchLabelAt label (c :: cs) with
    | some rest =>
      match sepThenDigits rest with
      | some code => some code
      | none => findLabelled label cs
    | none => findLabelled label cs

/-- Model of `EmailVerifier.CODE_PATTERNS`, in source order: the generic pattern is
the first element, before every labelled pattern. -/
def CODE_PATTERNS : List CodePattern :=
  [ CodePattern.generic
  , CodePattern.labelled "code"
  , CodePattern.labelled "verification"
  , CodePattern.labelled "confirm"
  , CodePattern.labelled "your code is" ]

/-- Model of `re.search(pattern, text, re.IGNORECASE)` returning group 1. -/
def matchPattern (p : CodePattern) (text : String) : Option String :=
  match p with
  | CodePattern.generic => findGeneric false text.data
  | CodePattern.labelled label => findLabelled label.data text.data

/-- Model of `EmailVerifier._extract_code_from_text`: `None` for falsy text,
otherwise the first pattern (in `CODE_PATTERNS` order) that matches wins. -/
def extractCodeFromText (text : String) : Option String :=
  if text = "" then none
  else CODE_PATTERNS.findSome? (fun p => matchPattern p text)

/-! Section: verification-code polling — `EmailVerifier.get_verification_code`

The loop is modelled over discrete elapsed time: `t` is the elapsed time
at the top of an iteration, each mailbox search takes `searchDur` time
units and (for the runs claim C5 is about) never yields a code, and
sleeping advances the clock by the slept amount.  The loop raises
`NoEmailReceivedError` when the elapsed time at the top of an iteration
strictly exceeds the timeout; otherwise it searches, computes
`remaining = timeout - elapsed` from the pre-search elapsed value,
sleeps `min poll_interval remaining` when positive, and iterates.
`pollRun` returns the raise time together with the `(elapsed, wait)` pairs
computed between polls, or `none` when the fuel runs out. -/

/-- The polling loop of `get_verification_code`, specialised to runs in
which no poll yields a code.  Arguments: fuel, timeout, poll interval,
per-search duration, current elapsed time, accumulated
`(elapsed, wait_time)` pairs. -/
def pollRun : ℕ → ℕ → ℕ → ℕ → ℕ → List (ℕ × ℕ) →
    Option (ℕ × List (ℕ × ℕ))
  | 0, _, _, _, _, _ => none
  | fuel + 1, timeout, poll_interval, searchDur, t, acc =>
    if timeout < t then some (t, acc.reverse)
    else
      let wait_time := min poll_interval (timeout - t)
      pollRun fuel timeout poll_interval searchDur
        (t + searchDur + wait_time) ((t, wait_time) :: acc)

/-! Section: account-creation pipeline — `KickAccountCreator.create_account` in
`workers/account_creator.py`

Collaborator calls are modelled by their outcomes: a normal return value or
a raised exception.  Exceptions are modelled by the class information the
`except` clauses of `create_account` dispatch on; Python's class hierarchy
makes the five constructors below pairwise disjoint for that dispatch
(`EmailPoolEmptyError`, `IMAPLoginError` and `NoEmailReceivedError` are
subclasses of `EmailVerificationError`; the solver's `TimeoutError`,
`InvalidAPIKeyError` and `RateLimitError` are subclasses of
`KasadaSolverError`; `AccountCreationError` and everything else fall
through to `except Exception`). -/

/-- Exception classes as seen by the handlers of `create_account`. -/
inductive PyExc where
  | emailVerification
  | kasadaSolver
  | verificationFailed
  | registrationFailed
  | accountCreation
  | other
  deriving DecidableEq, Repr

/-- Outcomes of the collaborator calls made by one `create_account` run,
together with the generated-or-supplied account fields. -/
structure PipelineEnv where
  solve : Except PyExc Unit
  sendVerificationEmail : Except PyExc Bool
  getVerificationCode : Except PyExc String
  verifyEmailCode : Except PyExc (Option String)
  registerAccount : Except PyExc (Option String)
  username : String
  password : String
  birthdate : String

/-- The dictionary returned by `create_account`.  `none` models an absent
key: the failure dictionaries carry only `success`, `error`, `message` and
`email`; the success dictionary carries `success`, `email`, `username`,
`password`, `birthdate`, `verification_code` and `account_data` but has no
`error` and no `message` key. -/
structure CreateResult where
  success : Bool
  email : Option String
  error : Option String
  message : Option String
  username : Option String
  password : Option String
  birthdate : Option String
  verification_code : Option String
  account_data : Option String
  deriving DecidableEq, Repr

/-- The `try` body of `create_account`: run the stages in order; a raised
exception aborts with the exception class and the value of the local
`email` variable at that point (`none` before step 1 assigns it). -/
def runBody (pool : HotmailPool) (env : PipelineEnv) :
    Except (PyExc × Option String) (HotmailPool × CreateResult) :=
  match pool.get_next_email with
  | Except.error _ =>
    -- `EmailPoolEmptyError` is an `EmailVerificationError`; `email` is
    -- still `None` when it is raised.
    Except.error (PyExc.emailVerification, none)
  | Except.ok (email, _email_password) =>
    match env.solve with
    | Except.error exc => Except.error (exc, some email)
    | Except.ok _ =>
      match env.sendVerificationEmail with
      | Except.error exc => Except.error (exc, some email)
      | Except.ok false =>
        Except.error (PyExc.verificationFailed, some email)
      | Except.ok true =>
        match env.getVerificationCode with
        | Except.error exc => Except.error (exc, some email)
        | Except.ok code =>
          match env.verifyEmailCode with
          | Except.error exc => Except.error (exc, some email)
          | Except.ok none =>
            Except.error (PyExc.verificationFailed, some email)
          | Except.ok (some _token) =>
            match env.registerAccount with
            | Except.error exc => Except.error (exc, some email)
            | Except.ok none =>
              Except.error (PyExc.registrationFailed, some email)
            | Except.ok (some account_data) =>
              Except.ok
                ( pool.mark_as_used email
                , { success := true
                    email := some email
                    error := none
                    message := none
                    username := some env.username
                    password := some env.password
                    birthdate := some env.birthdate
                    verification_code := some code
                    account_data := some account_data } )

/-- The failure dictionary built by each `except` clause.  In Python the
`message` value is `str(e)`; exception payloads are not modelled, so the
model stores the error kind there as well — only the presence of the key
matters to the claims. -/
def failureResult (errorKind : String) (email : Option String) :
    CreateResult :=
  { success := false
    email := email
    error := some errorKind
    message := some errorKind
    username := none
    password := none
    birthdate := none
    verification_code := none
    account_data := none }

/-- Model of `if email:` — Python truthiness of the local `email` variable. -/
def emailTruthy : Option String → Bool
  | none => false
  | some e => e != ""

/-- Model of `KickAccountCreator.create_account`: the `try` body followed by the
five `except` clauses, which mark the pool and build the failure
dictionary.  Only `RegistrationFailedError` leads to `mark_as_used`; the
other four handlers (including the catch-all `except Exception`) apply
`mark_as_failed` when an email was acquired. -/
def create_account (pool : HotmailPool) (env : PipelineEnv) :
    HotmailPool × CreateResult :=
  match runBody pool env with
  | Except.ok r => r
  | Except.error (exc, email) =>
    match exc with
    | PyExc.emailVerification =>
      ( if emailTruthy email then
          pool.mark_as_failed (email.getD "")
        else pool
      , failureResult "Email verification failed" email )
    | PyExc.kasadaSolver =>
      ( if emailTruthy email then
          pool.mark_as_failed (email.getD "")
        else pool
      , failureResult "Kasada challenge failed" email )
    | PyExc.verificationFailed =>
      ( if emailTruthy email then
          pool.mark_as_failed (email.getD "")
        else pool
      , failureResult "Verification failed" email )
    | PyExc.registrationFailed =>
      ( if emailTruthy email then
          pool.mark_as_used (email.getD "")
        else pool
      , failureResult "Registration failed" email )
    | PyExc.accountCreation =>
      ( if emailTruthy email then
          pool.mark_as_failed (email.getD "")
        else pool
      , failureResult "Unexpected error" email )
    | PyExc.other =>
      ( if emailTruthy email then
          pool.mark_as_failed (email.getD "")
        else pool
      , failureResult "Unexpected error" email )

/-! Section: job processing — `WorkerDaemon.process_job` in
`workers/worker_daemon.py`

One unit of work is one `create_account` call.  The Python code stores the
returned value in `account_data` and appends it to `accounts_created` when
`if account_data:` holds — `create_account` returns a non-empty dictionary
on success *and* on failure, and a non-empty dictionary is truthy, so a
returned record counts as a created account regardless of its `success`
flag; the `else` branch (`"Account creation returned None"`) fires only
for a falsy return value.  A raised `AccountCreationError` or other
exception is caught per unit and appends to `errors` instead. -/

/-- Outcome of one unit: the `create_account` call returned the record `r`,
returned a falsy value, or raised. -/
inductive UnitOutcome where
  | result (r : CreateResult)
  | falsy
  | raised (msg : String)
  deriving DecidableEq, Repr

/-- A job payload as read from the queue (fields the processing logic
uses). -/
structure Job where
  id : Option String
  count : ℕ
  retry_count : ℕ
  deriving DecidableEq, Repr

/-- Job statuses written by `update_job_status`. -/
inductive JobStatus where
  | pending
  | running
  | completed
  | failed
  deriving DecidableEq, Repr

/-- Observable outcome of one `process_job` call. -/
structure JobOutcome where
  returnValue : Bool
  finalStatus : Option JobStatus
  errorMsg : Option String
  resultAttached : Bool
  requeued : Option Job
  deriving DecidableEq, Repr

/-- Model of `if account_data:` — a returned dictionary is non-empty, hence truthy. -/
def unitTruthy : UnitOutcome → Bool
  | UnitOutcome.result _ => true
  | UnitOutcome.falsy => false
  | UnitOutcome.raised _ => false

/-- The error string appended for a unit that did not count as created. -/
def unitError : UnitOutcome → Option String
  | UnitOutcome.result _ => none
  | UnitOutcome.falsy => some "Account creation returned None"
  | UnitOutcome.raised msg => some msg

/-- Model of `WorkerDaemon.process_job`, given the outcome of each of the job's
`count` units (the model presumes `units.length = job.count`, which the
theorems hypothesise).  Classification: all units truthy → `completed`
with result; at least one truthy → `completed` with result and a
partial-success error message; zero truthy → requeue with
`retry_count + 1` and status `pending` when `retry_count < max_retries`,
else status `failed` with an aggregated error message. -/
def process_job (max_retries : ℕ) (job : Job) (units : List UnitOutcome) :
    JobOutcome :=
  match job.id with
  | none =>
    { returnValue := false, finalStatus := none, errorMsg := none
      resultAttached := false, requeued := none }
  | some _ =>
    let accounts_created := units.filter unitTruthy
    let errors := units.filterMap unitError
    if accounts_created.length = job.count then
      { returnValue := true
        finalStatus := some JobStatus.completed
        errorMsg := none
        resultAttached := true
        requeued := none }
    else if 0 < accounts_created.length then
      { returnValue := true
        finalStatus := some JobStatus.completed
        errorMsg := some "Partial success"
        resultAttached := true
        requeued := none }
    else if job.retry_count < max_retries then
      { returnValue := false
        finalStatus := some JobStatus.pending
        errorMsg := none
        resultAttached := false
        requeued := some { job with retry_count := job.retry_count + 1 } }
    else
      { returnValue := false
        finalStatus := some JobStatus.failed
        errorMsg := some (String.intercalate "; " errors)
        resultAttached := false
        requeued := none }

/-! Section: challenge client — `KasadaSolver` in `workers/kasada_solver.py`

`solve` (outside test mode) makes up to `MAX_RETRIES = 3` attempts.  Each
attempt's `_make_api_request` outcome is modelled by `ApiOutcome`:
a 200 response with parseable JSON succeeds; a 200 response with invalid
JSON raises `KasadaSolverError`; status 401 or 403 raises
`InvalidAPIKeyError`; status 429 raises `RateLimitError`; any other status
raises `KasadaSolverError`; `asyncio.TimeoutError` and
`aiohttp.ClientError` propagate.  In `solve`, `InvalidAPIKeyError` and
`RateLimitError` re-raise immediately; a timeout records the solver's
`TimeoutError` and retries; `aiohttp.ClientError` and every other
exception (including the `KasadaSolverError` from non-200 statuses) record
a `KasadaSolverError` and retry, sleeping `2 ^ attempt` before the next
attempt. -/

/-- Exceptions `solve` can raise (all subclasses of `KasadaSolverError`). -/
inductive SolveExc where
  | invalidApiKey
  | rateLimit
  | timeout
  | kasadaError
  deriving DecidableEq, Repr

/-- Outcome of one `_make_api_request` call.  `status n` models a non-200
HTTP response with status `n`. -/
inductive ApiOutcome where
  | ok
  | badJson
  | timeout
  | clientError
  | status (n : ℕ)
  deriving DecidableEq, Repr

/-- How `solve`'s `except` clauses treat one attempt's outcome. -/
inductive AttemptClass where
  | success
  | nonRetryable (e : SolveExc)
  | retryable (e : SolveExc)
  deriving DecidableEq, Repr

/-- Classify one attempt: `_make_api_request`'s status dispatch composed
with `solve`'s `except` clauses. -/
def classifyAttempt : ApiOutcome → AttemptClass
  | ApiOutcome.ok => AttemptClass.success
  | ApiOutcome.badJson => AttemptClass.retryable SolveExc.kasadaError
  | ApiOutcome.timeout => AttemptClass.retryable SolveExc.timeout
  | ApiOutcome.clientError => AttemptClass.retryable SolveExc.kasadaError
  | ApiOutcome.status n =>
    if n = 401 ∨ n = 403 then AttemptClass.nonRetryable SolveExc.invalidApiKey
    else if n = 429 then AttemptClass.nonRetryable SolveExc.rateLimit
    else AttemptClass.retryable SolveExc.kasadaError

/-- Constant `KasadaSolver.MAX_RETRIES`. -/
def MAX_RETRIES : ℕ := 3

/-- Observable outcome of one `solve` call (outside test mode):
the number of attempts made, the backoff sleeps performed between
attempts, and the final result. -/
structure SolveResult where
  attemptsMade : ℕ
  backoffs : List ℕ
  outcome : Except SolveExc Unit
  deriving Repr

/-- The `for attempt in range(1, MAX_RETRIES + 1)` loop of `solve`:
`attempt` is the 1-based attempt number, `left` the attempts remaining,
`backs` the backoff sleeps so far (reversed), `lastE` the recorded
`last_exception`.  A retryable failure on the last attempt falls out of
the loop and raises `last_exception`. -/
def solveLoop (api : ℕ → ApiOutcome) :
    ℕ → ℕ → List ℕ → Option SolveExc → SolveResult
  | attempt, 0, backs, lastE =>
    { attemptsMade := attempt - 1
      backoffs := backs.reverse
      outcome := Except.error (lastE.getD SolveExc.kasadaError) }
  | attempt, left + 1, backs, _lastE =>
    match classifyAttempt (api attempt) with
    | AttemptClass.success =>
      { attemptsMade := attempt
        backoffs := backs.reverse
        outcome := Except.ok () }
    | AttemptClass.nonRetryable e =>
      { attemptsMade := attempt
        backoffs := backs.reverse
        outcome := Except.error e }
    | AttemptClass.retryable e =>
      if attempt < MAX_RETRIES then
        solveLoop api (attempt + 1) left ((2 ^ attempt) :: backs) (some e)
      else
        { attemptsMade := attempt
          backoffs := backs.reverse
          outcome := Except.error e }

/-- Model of `KasadaSolver.solve` outside test mode, given each attempt's API
outcome. -/
def solveRun (api : ℕ → ApiOutcome) : SolveResult :=
  solveLoop api 1 MAX_RETRIES [] none

/-! Section: concrete fixtures used by the witnesses and counterexamples. -/

/-- A pool as loaded from the single line `a@b.c:x`. -/
def pool1 : HotmailPool := ⟨[("a@b.c", "x")], ∅, ∅⟩

/-- A pool as loaded from two lines carrying the same identifier. -/
def dupPool : HotmailPool := ⟨[("a@b.c", "x"), ("a@b.c", "y")], ∅, ∅⟩

/-- An environment in which every collaborator call succeeds. -/
def okEnv : PipelineEnv :=
  { solve := Except.ok ()
    sendVerificationEmail := Except.ok true
    getVerificationCode := Except.ok "123456"
    verifyEmailCode := Except.ok (some "tok")
    registerAccount := Except.ok (some "acct")
    username := "user1"
    password := "pw1"
    birthdate := "2000-01-01" }

/-- An environment in which registration raises an unclassified exception. -/
def registerOtherEnv : PipelineEnv :=
  { okEnv with registerAccount := Except.error PyExc.other }

/-- An environment in which `_register_account` returns a falsy value, so
the pipeline raises the classified `RegistrationFailedError`. -/
def registerNoneEnv : PipelineEnv :=
  { okEnv with registerAccount := Except.ok none }

/-- A failure record as returned by a `create_account` run that failed
verification. -/
def failRecord : CreateResult :=
  failureResult "Verification failed" (some "a@b.c")

/-- The success record returned by a fully successful `create_account` run
on `pool1`. -/
def successRecord : CreateResult := (create_account pool1 okEnv).2

/-- A one-unit job on its first attempt. -/
def c6Job : Job := { id := some "job-1", count := 1, retry_count := 0 }

/-- A two-unit job on its first attempt. -/
def c7Job : Job := { id := some "job-2", count := 2, retry_count := 0 }

/-- The run reaches the Register stage and fails there with the classified
`RegistrationFailedError`: every earlier stage succeeded and
`_register_account` returned a falsy value. -/
def failsAtRegister (env : PipelineEnv) : Prop :=
  env.solve = Except.ok () ∧
  env.sendVerificationEmail = Except.ok true ∧
  (∃ c, env.getVerificationCode = Except.ok c) ∧
  (∃ t, env.verifyEmailCode = Except.ok (some t)) ∧
  env.registerAccount = Except.ok none

/-- The run fails with a classified error at a stage before Register:
the challenge stage (a `KasadaSolverError`), the send-code stage
(`_send_verification_email` returned `False`), the await-code stage
(an `EmailVerificationError` from the mailbox poller), or the verify-code
stage (`_verify_email_code` returned a falsy token). -/
def failsBeforeRegister (env : PipelineEnv) : Prop :=
  env.solve = Except.error PyExc.kasadaSolver
  ∨ (env.solve = Except.ok () ∧
      env.sendVerificationEmail = Except.ok false)
  ∨ (env.solve = Except.ok () ∧
      env.sendVerificationEmail = Except.ok true ∧
      env.getVerificationCode = Except.error PyExc.emailVerification)
  ∨ (env.solve = Except.ok () ∧
      env.sendVerificationEmail = Except.ok true ∧
      (∃ c, env.getVerificationCode = Except.ok c) ∧
      env.verifyEmailCode = Except.ok none)

/-! Section: helper lemmas. -/

/-- Entries produced by `_load_emails` never carry an identifier from the
`used` or `failed` set passed to it. -/
theorem loadEmailsAux_disjoint (used failed : Finset String)
    (lines : List String) :
    ∀ ep ∈ (loadEmailsAux used failed lines).1, ep.1 ∉ used ∧ ep.1 ∉ failed := by
  induction lines with
  | nil => simp [loadEmailsAux]
  | cons l ls ih =>
    intro ep hep
    rw [loadEmailsAux] at hep
    dsimp only at hep
    split at hep
    · exact ih ep hep
    · split at hep
      · simp [loadEmailsAux] at hep
      · split at hep
        · exact ih ep hep
        · split at hep
          · exact ih ep hep
          · rcases List.mem_cons.mp hep with h | h
            · subst h
              rename_i hnotin
              push_neg at hnotin
              exact hnotin
            · exact ih ep h

/-- The disjointness of `available` from the terminal sets is preserved by
every single pool operation. -/
theorem applyOp_availDisjoint (pool : HotmailPool) (op : PoolOp)
    (h : availDisjoint pool) : availDisjoint (applyOp pool op) := by
  cases op with
  | markUsed e =>
    intro ep hep
    simp only [applyOp, HotmailPool.mark_as_used, List.mem_filter] at hep ⊢
    obtain ⟨hmem, hne⟩ := hep
    have hold := h ep hmem
    refine ⟨?_, hold.2⟩
    rw [Finset.mem_insert]
    push_neg
    exact ⟨by simpa using hne, hold.1⟩
  | markFailed e =>
    intro ep hep
    simp only [applyOp, HotmailPool.mark_as_failed, List.mem_filter] at hep ⊢
    obtain ⟨hmem, hne⟩ := hep
    have hold := h ep hmem
    refine ⟨hold.1, ?_⟩
    rw [Finset.mem_insert]
    push_neg
    exact ⟨by simpa using hne, hold.2⟩
  | getNext => exact h
  | reload lines =>
    intro ep hep
    simp only [applyOp, HotmailPool.reload] at hep
    exact loadEmailsAux_disjoint pool.used_emails pool.failed_emails lines ep hep

/-- The disjointness of `available` from the terminal sets is preserved by
any sequence of pool operations. -/
theorem applyOps_availDisjoint (pool : HotmailPool) (ops : List PoolOp)
    (h : availDisjoint pool) : availDisjoint (applyOps pool ops) := by
  induction ops generalizing pool with
  | nil => exact h
  | cons op ops ih =>
    exact ih (applyOp pool op) (applyOp_availDisjoint pool op h)

/-- A freshly loaded pool satisfies `availDisjoint` (its terminal sets are
empty). -/
theorem loadPool_availDisjoint (lines : List String) (pool : HotmailPool)
    (h : loadPool lines = Except.ok pool) : availDisjoint pool := by
  unfold loadPool at h
  split at h
  · cases h
    intro ep _
    simp
  · cases h

/-! Section: claim theorems. -/

/-- C1, counterexample.  On the pool loaded from the single line
`a@b.c:x`, the call sequence `mark_as_used "a@b.c"; mark_as_failed
"a@b.c"` leaves the identifier in *both* terminal sets — so the three sets
do not partition the loaded identifiers, and marking an identifier that is
already terminal is not a no-op (the second mark changed `failed`). -/
theorem C1_counterexample :
    loadPool ["a@b.c:x"] = Except.ok pool1 ∧
    "a@b.c" ∈ (applyOps pool1
      [PoolOp.markUsed "a@b.c", PoolOp.markFailed "a@b.c"]).used_emails ∧
    "a@b.c" ∈ (applyOps pool1
      [PoolOp.markUsed "a@b.c", PoolOp.markFailed "a@b.c"]).failed_emails := by
  refine ⟨by rfl, by decide, by decide⟩

/-- C1, amended.  After any sequence of `mark_as_used` / `mark_as_failed` /
`get_next_email` / `reload` calls on a loaded `HotmailPool`, every
identifier of an `available` entry is in neither `used` nor `failed`; the
two terminal sets, however, are not kept disjoint from each other, because
marking always inserts into the target terminal set even when the
identifier is already terminal or was never loaded. -/
theorem C1_amended (lines : List String) (pool : HotmailPool)
    (ops : List PoolOp) (h : loadPool lines = Except.ok pool) :
    availDisjoint (applyOps pool ops) :=
  applyOps_availDisjoint pool ops (loadPool_availDisjoint lines pool h)

/-- C1, witness for the amended theorem at a concrete loaded pool and
operation sequence. -/
theorem C1_amended_witness :
    availDisjoint (applyOps pool1
      [PoolOp.markUsed "a@b.c", PoolOp.getNext, PoolOp.reload ["a@b.c:x"]]) :=
  C1_amended ["a@b.c:x"] pool1
    [PoolOp.markUsed "a@b.c", PoolOp.getNext, PoolOp.reload ["a@b.c:x"]] (by rfl)

/-- C4, counterexample.  The text `"1234 junk code: 5678"` contains an
unlabelled digit run (`1234`) and a later labelled code (`code: 5678`);
the claim says the labelled code `5678` is returned, but extraction
returns `1234`, because the generic any-4-to-8-digit pattern is *first*
in `CODE_PATTERNS`, before the labelled patterns. -/
theorem C4_counterexample :
    extractCodeFromText "1234 junk code: 5678" ≠ some "5678" ∧
    extractCodeFromText "1234 junk code: 5678" = some "1234" := by
  refine ⟨by decide, by decide⟩

/-- C4, amended.  The generic 4-to-8-digit fallback pattern is the *first*
element of `CODE_PATTERNS`, tried before the labelled patterns, and the
first pattern that matches wins: whenever the generic pattern matches a
text, its match is what `_extract_code_from_text` returns — so for text
containing both an unlabelled digit run and a later labelled code, the
unlabelled run (not the labelled code) is returned. -/
theorem C4_amended (text code : String)
    (h : matchPattern CodePattern.generic text = some code) :
    CODE_PATTERNS.head? = some CodePattern.generic ∧
    extractCodeFromText text = some code := by
  refine ⟨rfl, ?_⟩
  by_cases ht : text = ""
  · subst ht
    rw [show matchPattern CodePattern.generic "" = none from rfl] at h
    cases h
  · unfold extractCodeFromText
    rw [if_neg ht]
    simp [CODE_PATTERNS, List.findSome?, h]

/-- C4, witness for the amended theorem on a concrete text. -/
theorem C4_amended_witness :
    CODE_PATTERNS.head? = some CodePattern.generic ∧
    extractCodeFromText "Code: 9876" = some "9876" :=
  C4_amended "Code: 9876" "9876" (by decide)

/-- Helper for C5: with positive per-search duration and enough fuel, the
polling loop started at elapsed time `t ≤ timeout` terminates by raising at
an elapsed time in `(timeout, timeout + searchDur]`, and every recorded
`(elapsed, wait)` pair not inherited from the accumulator satisfies
`wait = min poll_interval (timeout - elapsed)`. -/
theorem pollRun_go (timeout poll_interval searchDur : ℕ)
    (hd : 1 ≤ searchDur) :
    ∀ fuel t acc, t ≤ timeout → timeout + 2 ≤ fuel + t →
      ∃ r s, pollRun fuel timeout poll_interval searchDur t acc =
          some (r, s) ∧
        timeout < r ∧ r ≤ timeout + searchDur ∧
        ∀ pr ∈ s, pr ∈ acc.reverse ∨
          pr.2 = min poll_interval (timeout - pr.1) := by
  intro fuel
  induction fuel with
  | zero => intro t acc ht hf; omega
  | succ f ih =>
    intro t acc ht hf
    rw [pollRun]
    rw [if_neg (by omega : ¬ timeout < t)]
    by_cases hnext :
        t + searchDur + min poll_interval (timeout - t) ≤ timeout
    · obtain ⟨r, s, heq, hr1, hr2, hs⟩ :=
        ih (t + searchDur + min poll_interval (timeout - t))
          ((t, min poll_interval (timeout - t)) :: acc) hnext (by omega)
      refine ⟨r, s, heq, hr1, hr2, ?_⟩
      intro pr hpr
      rcases hs pr hpr with hin | hp
      · rw [List.reverse_cons] at hin
        rcases List.mem_append.mp hin with h1 | h1
        · exact Or.inl h1
        · right
          have : pr = (t, min poll_interval (timeout - t)) := by
            simpa using h1
          subst this
          rfl
      · exact Or.inr hp
    · push_neg at hnext
      obtain ⟨f', rfl⟩ : ∃ f', f = f' + 1 := ⟨f - 1, by omega⟩
      rw [pollRun]
      rw [if_pos hnext]
      refine ⟨t + searchDur + min poll_interval (timeout - t),
        ((t, min poll_interval (timeout - t)) :: acc).reverse, rfl,
        hnext, ?_, ?_⟩
      · have hle : min poll_interval (timeout - t) ≤ timeout - t :=
          min_le_right _ _
        omega
      · intro pr hpr
        rw [List.reverse_cons] at hpr
        rcases List.mem_append.mp hpr with h1 | h1
        · exact Or.inl h1
        · right
          have : pr = (t, min poll_interval (timeout - t)) := by
            simpa using h1
          subst this
          rfl

/-- C5, confirmed.  For a `get_verification_code` run in which no poll
yields a code, with each search taking at least one time unit and at most
one poll interval: the loop raises `NoEmailReceivedError` at an elapsed
time strictly greater than `timeout` and at most `timeout +
poll_interval`, and each wait between polls equals
`min poll_interval remaining` (computed from the pre-search elapsed time),
which is positive whenever the elapsed time is below the timeout — the
loop never busy-spins before the budget is spent. -/
theorem C5 (timeout poll_interval searchDur : ℕ)
    (hd : 1 ≤ searchDur) (hdp : searchDur ≤ poll_interval) :
    ∃ raiseTime sleeps,
      pollRun (timeout + 2) timeout poll_interval searchDur 0 [] =
        some (raiseTime, sleeps) ∧
      timeout < raiseTime ∧
      raiseTime ≤ timeout + poll_interval ∧
      ∀ pr ∈ sleeps,
        pr.2 = min poll_interval (timeout - pr.1) ∧
        (pr.1 < timeout → 0 < pr.2) := by
  obtain ⟨r, s, heq, hr1, hr2, hs⟩ :=
    pollRun_go timeout poll_interval searchDur hd (timeout + 2) 0 []
      (Nat.zero_le _) (by omega)
  refine ⟨r, s, heq, hr1, by omega, ?_⟩
  intro pr hpr
  rcases hs pr hpr with hin | hp
  · simp at hin
  · refine ⟨hp, ?_⟩
    intro hlt
    rw [hp]
    exact lt_min (by omega) (by omega)

/-- C5, witness at timeout 7, poll interval 3, search duration 1. -/
theorem C5_witness :
    ∃ raiseTime sleeps,
      pollRun 9 7 3 1 0 [] = some (raiseTime, sleeps) ∧
      7 < raiseTime ∧
      raiseTime ≤ 10 ∧
      ∀ pr ∈ sleeps,
        pr.2 = min 3 (7 - pr.1) ∧ (pr.1 < 7 → 0 < pr.2) :=
  C5 7 3 1 (by decide) (by decide)

/-- C2, confirmed.  For a `create_account` run that acquires the head
credential `(e, pw)` of the pool (with `e` truthy and not yet terminal):
if the run fails at the Register stage with the classified
`RegistrationFailedError`, then `e` ends in `used` and not in `failed`;
if the run fails with a classified error at the challenge, send-code,
await-code, or verify-code stage, then `e` ends in `failed` and not in
`used`. -/
theorem C2 (pool : HotmailPool) (env : PipelineEnv) (e pw : String)
    (hhead : pool.available_emails.head? = some (e, pw))
    (hne : e ≠ "")
    (hu : e ∉ pool.used_emails) (hf : e ∉ pool.failed_emails) :
    (failsAtRegister env →
      e ∈ (create_account pool env).1.used_emails ∧
      e ∉ (create_account pool env).1.failed_emails) ∧
    (failsBeforeRegister env →
      e ∈ (create_account pool env).1.failed_emails ∧
      e ∉ (create_account pool env).1.used_emails) := by
  have htr : emailTruthy (some e) = true := by
    simp [emailTruthy]
    exact hne
  cases hav : pool.available_emails with
  | nil => rw [hav] at hhead; cases hhead
  | cons hd tl =>
    rw [hav] at hhead
    obtain rfl : hd = (e, pw) := by simpa using hhead
    constructor
    · rintro ⟨h1, h2, ⟨c, h3⟩, ⟨tk, h4⟩, h5⟩
      unfold create_account runBody
      simp only [HotmailPool.get_next_email, hav, h1, h2, h3, h4, h5, htr,
        if_true, Option.getD]
      constructor
      · simp [HotmailPool.mark_as_used]
      · simp [HotmailPool.mark_as_used]
        exact hf
    · intro hearly
      unfold create_account runBody
      rcases hearly with h1 | ⟨h1, h2⟩ | ⟨h1, h2, h3⟩ | ⟨h1, h2, ⟨c, h3⟩, h4⟩
      · simp only [HotmailPool.get_next_email, hav, h1, htr, if_true,
          Option.getD]
        constructor
        · simp [HotmailPool.mark_as_failed]
        · simp [HotmailPool.mark_as_failed]
          exact hu
      · simp only [HotmailPool.get_next_email, hav, h1, h2, htr, if_true,
          Option.getD]
        constructor
        · simp [HotmailPool.mark_as_failed]
        · simp [HotmailPool.mark_as_failed]
          exact hu
      · simp only [HotmailPool.get_next_email, hav, h1, h2, h3, htr,
          if_true, Option.getD]
        constructor
        · simp [HotmailPool.mark_as_failed]
        · simp [HotmailPool.mark_as_failed]
          exact hu
      · simp only [HotmailPool.get_next_email, hav, h1, h2, h3, h4, htr,
          if_true, Option.getD]
        constructor
        · simp [HotmailPool.mark_as_failed]
        · simp [HotmailPool.mark_as_failed]
          exact hu

/-- C2, witness: the pool loaded from `a@b.c:x` and an environment whose
registration call returns a falsy value. -/
theorem C2_witness :
    (failsAtRegister registerNoneEnv →
      "a@b.c" ∈ (create_account pool1 registerNoneEnv).1.used_emails ∧
      "a@b.c" ∉ (create_account pool1 registerNoneEnv).1.failed_emails) ∧
    (failsBeforeRegister registerNoneEnv →
      "a@b.c" ∈ (create_account pool1 registerNoneEnv).1.failed_emails ∧
      "a@b.c" ∉ (create_account pool1 registerNoneEnv).1.used_emails) :=
  C2 pool1 registerNoneEnv "a@b.c" "x" (by decide) (by decide) (by decide)
    (by decide)

/-- C3, counterexample.  An unclassified exception raised at the Register
stage (after every earlier stage succeeded) is caught and mapped to the
generic failure, but the pipeline applies `mark_as_failed`, not
`mark_as_used` as the claim states: the credential ends in `failed`. -/
theorem C3_counterexample :
    "a@b.c" ∈ (create_account pool1 registerOtherEnv).1.failed_emails ∧
    "a@b.c" ∉ (create_account pool1 registerOtherEnv).1.used_emails ∧
    (create_account pool1 registerOtherEnv).2.success = false ∧
    (create_account pool1 registerOtherEnv).2.error =
      some "Unexpected error" := by
  refine ⟨by decide, by decide, by decide, by decide⟩

/-- C3, amended.  Every unclassified exception (any `Exception` that is
not an `EmailVerificationError`, `KasadaSolverError`,
`VerificationFailedError` or `RegistrationFailedError`) raised after a
credential was acquired is caught by the catch-all handler, which returns
the generic-failure result and applies `mark_as_failed(email)` regardless
of the stage at which the exception occurred; `mark_as_used` is applied
only for the classified `RegistrationFailedError`. -/
theorem C3_amended (pool : HotmailPool) (env : PipelineEnv) (exc : PyExc)
    (e : String)
    (hrun : runBody pool env = Except.error (exc, some e))
    (hunc : exc = PyExc.other ∨ exc = PyExc.accountCreation)
    (hne : e ≠ "") :
    create_account pool env =
      (pool.mark_as_failed e, failureResult "Unexpected error" (some e)) := by
  have htr : emailTruthy (some e) = true := by
    simp [emailTruthy]
    exact hne
  unfold create_account
  rw [hrun]
  rcases hunc with rfl | rfl <;> simp [htr]

/-- C3, witness: the amended theorem at the concrete pool and environment
of the counterexample. -/
theorem C3_amended_witness :
    create_account pool1 registerOtherEnv =
      (pool1.mark_as_failed "a@b.c",
        failureResult "Unexpected error" (some "a@b.c")) :=
  C3_amended pool1 registerOtherEnv PyExc.other "a@b.c" (by rfl)
    (Or.inl rfl) (by decide)

/-- C9, counterexample.  A fully successful run returns a result whose
`success` flag is true but which carries *no* error kind and *no* message
key — refuting the claim that every returned result carries an error kind
and a human-readable message. -/
theorem C9_counterexample :
    (create_account pool1 okEnv).2.success = true ∧
    (create_account pool1 okEnv).2.error = none ∧
    (create_account pool1 okEnv).2.message = none := by
  refine ⟨by decide, by decide, by decide⟩

/-- C9, amended.  `create_account` never lets an exception escape: for
every pool state and every collaborator behaviour it returns a result
record.  The record always carries the `success` flag and the acquired
email (the pool head when one was acquired, `none` when the pool was
empty); the `error` kind and `message` are present exactly on failure
results — the success record carries neither. -/
theorem C9_amended (pool : HotmailPool) (env : PipelineEnv) :
    (create_account pool env).2.email =
      pool.available_emails.head?.map Prod.fst ∧
    (create_account pool env).2.error.isSome =
      !(create_account pool env).2.success ∧
    (create_account pool env).2.message.isSome =
      !(create_account pool env).2.success := by
  obtain ⟨slv, snd, gvc, vec, reg, un, pw2, bd⟩ := env
  unfold create_account runBody
  cases hav : pool.available_emails with
  | nil => simp [HotmailPool.get_next_email, hav, failureResult]
  | cons hd tl =>
    obtain ⟨e, pw⟩ := hd
    cases slv with
    | error exc =>
      cases exc <;>
        simp [HotmailPool.get_next_email, hav, failureResult]
    | ok u =>
      cases snd with
      | error exc =>
        cases exc <;>
          simp [HotmailPool.get_next_email, hav, failureResult]
      | ok b =>
        cases b with
        | false => simp [HotmailPool.get_next_email, hav, failureResult]
        | true =>
          cases gvc with
          | error exc =>
            cases exc <;>
              simp [HotmailPool.get_next_email, hav, failureResult]
          | ok code =>
            cases vec with
            | error exc =>
              cases exc <;>
                simp [HotmailPool.get_next_email, hav, failureResult]
            | ok otk =>
              cases otk with
              | none => simp [HotmailPool.get_next_email, hav, failureResult]
              | some tk =>
                cases reg with
                | error exc =>
                  cases exc <;>
                    simp [HotmailPool.get_next_email, hav, failureResult]
                | ok oad =>
                  cases oad with
                  | none =>
                    simp [HotmailPool.get_next_email, hav, failureResult]
                  | some ad =>
                    simp [HotmailPool.get_next_email, hav]

/-- C9, witness for the amended theorem at a concrete pool and
environment. -/
theorem C9_amended_witness :
    (create_account pool1 okEnv).2.email =
      pool1.available_emails.head?.map Prod.fst ∧
    (create_account pool1 okEnv).2.error.isSome =
      !(create_account pool1 okEnv).2.success ∧
    (create_account pool1 okEnv).2.message.isSome =
      !(create_account pool1 okEnv).2.success :=
  C9_amended pool1 okEnv

/-- C6, code bug.  A one-unit job on its first attempt
(`retry_count = 0 < max_retries = 3`) whose single `create_account` call
returns a failure record (`success = False`) — i.e. every unit of the job
failed — is *not* re-enqueued with `retry_count + 1` and status `pending`
as the claim requires: because the failure record is a truthy non-empty
dictionary, `process_job` counts it as a created account and marks the job
`completed` with no requeue. -/
theorem C6_code_bug :
    failRecord.success = false ∧
    c6Job.retry_count < 3 ∧
    process_job 3 c6Job [UnitOutcome.result failRecord] =
      { returnValue := true
        finalStatus := some JobStatus.completed
        errorMsg := none
        resultAttached := true
        requeued := none } := by
  refine ⟨by decide, by decide, by decide⟩

/-- C7, code bug.  A two-unit job in which one unit's pipeline result
reports success and the other unit's result reports failure should be a
partial success (`completed` with an attached error summary), but
`process_job` tests `if account_data:` — truthiness — instead of the
result's `success` flag, so both returned records count as created
accounts and the job is classified as a total success with no error
summary. -/
theorem C7_code_bug :
    successRecord.success = true ∧
    failRecord.success = false ∧
    process_job 3 c7Job
      [UnitOutcome.result successRecord, UnitOutcome.result failRecord] =
      { returnValue := true
        finalStatus := some JobStatus.completed
        errorMsg := none
        resultAttached := true
        requeued := none } := by
  refine ⟨by decide, by decide, by decide⟩

/-- C8, counterexample.  An API that answers status 400 (a 4xx that is
neither 401, 403 nor 429) on every attempt: the claim says no 4xx response
is retried, but `solve` wraps the status in a `KasadaSolverError`, which
its catch-all `except Exception` clause treats as retryable — the solver
makes all three attempts, sleeping the exponential backoffs 2 and 4
between them, before raising the generic solver error. -/
theorem C8_counterexample :
    (solveRun (fun _ => ApiOutcome.status 400)).attemptsMade = 3 ∧
    (solveRun (fun _ => ApiOutcome.status 400)).backoffs = [2, 4] ∧
    (solveRun (fun _ => ApiOutcome.status 400)).outcome =
      Except.error SolveExc.kasadaError := by
  refine ⟨by decide, by decide, by rfl⟩

/-- C8, amended.  Outside test mode, `solve` raises the invalid-key error
immediately without retry on a 401 or 403 response and the rate-limit
error immediately without retry on a 429 response; every *other* failing
attempt — timeout, connection error, invalid JSON, or any other response
status, which includes 5xx but also the remaining 4xx such as 400 — is
retried with exponential backoff starting at 2 seconds. -/
theorem C8_amended (api : ℕ → ApiOutcome) :
    ((api 1 = ApiOutcome.status 401 ∨ api 1 = ApiOutcome.status 403) →
      solveRun api =
        { attemptsMade := 1
          backoffs := []
          outcome := Except.error SolveExc.invalidApiKey }) ∧
    (api 1 = ApiOutcome.status 429 →
      solveRun api =
        { attemptsMade := 1
          backoffs := []
          outcome := Except.error SolveExc.rateLimit }) ∧
    (∀ exc, classifyAttempt (api 1) = AttemptClass.retryable exc →
      2 ≤ (solveRun api).attemptsMade ∧
      (solveRun api).backoffs.head? = some 2) := by
  refine ⟨?_, ?_, ?_⟩
  · intro h
    unfold solveRun MAX_RETRIES
    simp only [solveLoop]
    rcases h with h | h <;> rw [h] <;> simp [classifyAttempt]
  · intro h
    unfold solveRun MAX_RETRIES
    simp only [solveLoop]
    rw [h]
    simp [classifyAttempt]
  · intro exc hexc
    unfold solveRun MAX_RETRIES
    simp only [solveLoop]
    rw [hexc]
    simp only [MAX_RETRIES]
    norm_num
    rcases h2 : classifyAttempt (api 2) with _ | e2 | e2 <;> simp [h2]
    rcases h3 : classifyAttempt (api 3) with _ | e3 | e3 <;> simp [h3]

/-- C8, witness for the amended theorem: an API timing out on the first
attempt is retried. -/
theorem C8_amended_witness :
    2 ≤ (solveRun (fun _ => ApiOutcome.timeout)).attemptsMade ∧
    (solveRun (fun _ => ApiOutcome.timeout)).backoffs.head? = some 2 :=
  (C8_amended (fun _ => ApiOutcome.timeout)).2.2 SolveExc.timeout (by rfl)

/-- C10, confirmed.  Loading a source whose two valid lines carry the same
identifier appends one available entry per line (both counted in the
stats), and a single `mark_as_used` (or `mark_as_failed`) call removes
*every* available entry carrying that identifier — in general, after
marking, no available entry with the marked identifier remains — while the
terminal set (a Python set) contains the identifier exactly once. -/
theorem C10 :
    (∀ (pool : HotmailPool) (e : String),
      (pool.mark_as_used e).available_emails.filter
          (fun ep => ep.1 == e) = [] ∧
      e ∈ (pool.mark_as_used e).used_emails ∧
      (pool.mark_as_failed e).available_emails.filter
          (fun ep => ep.1 == e) = [] ∧
      e ∈ (pool.mark_as_failed e).failed_emails) ∧
    loadPool ["a@b.c:x", "a@b.c:y"] = Except.ok dupPool ∧
    dupPool.get_stats = (2, 0, 0, 2) ∧
    (dupPool.mark_as_used "a@b.c").available_emails = [] ∧
    (dupPool.mark_as_used "a@b.c").used_emails = {"a@b.c"} ∧
    (dupPool.mark_as_used "a@b.c").used_emails.card = 1 := by
  refine ⟨?_, by rfl, by decide, by decide, by decide, by decide⟩
  intro pool e
  refine ⟨?_, Finset.mem_insert_self _ _, ?_, Finset.mem_insert_self _ _⟩ <;>
  · rw [List.filter_eq_nil_iff]
    intro a ha
    simp only [HotmailPool.mark_as_used, HotmailPool.mark_as_failed,
      List.mem_filter] at ha
    have h2 := ha.2
    simp only [bne_iff_ne, ne_eq] at h2
    simp [h2]

end Botrix
